import Mathlib

/-!
Verification development for the mupen64plus-rs bridging layer.

This file gives a shallow embedding of the library's pure content and of the
observable behaviour of its FFI-facing operations, translated from
`src/plugin.rs`, `src/core.rs`, `src/core/debug.rs` and `src/lib.rs`.

Modelling conventions:
* Rust `u32`/`i32` values are represented by their bit patterns as `Nat`
  (always `< 2 ^ 32`); arithmetic that can wrap is taken modulo `2 ^ 32`.
* A native entry point resolved from a dynamic library is modelled by an
  `Option` field: `none` means the symbol was absent.  Calling an absent
  entry point through `Option::unwrap` panics in the Rust code; a panic is
  modelled by an overall result of `none` (abnormal termination, as opposed
  to `some (Except.error e)`, which models an `Err` value actually returned
  to the caller).
* The behaviour of a loaded native library is modelled by the values its
  entry points return (error codes and out-parameters); the model fixes one
  result per entry point, which suffices for the properties proved here.
* Operations whose specified behaviour includes *which* native calls are
  issued additionally return the list of calls they made, in order.
-/

namespace M64

/-- Semantic version triple.  Mirrors the `semver::Version` values produced by
`mupen_to_version`: no pre-release or build metadata is ever attached. -/
structure Version where
  major : Nat
  minor : Nat
  patch : Nat
  deriving DecidableEq

/-- Rust `semver::Version` ordering restricted to bare versions (no
pre-release): strict lexicographic comparison on (major, minor, patch). -/
def Version.lt (a b : Version) : Bool :=
  a.major < b.major ||
    (a.major == b.major &&
      (a.minor < b.minor || (a.minor == b.minor && a.patch < b.patch)))

/-- Converts a mupen64plus version number to a `Version` (`mupen_to_version`
in `src/plugin.rs`).  The Rust argument is an `i32`, represented here by its
32-bit two's-complement bit pattern, on which the source's arithmetic
shift-and-mask pipeline acts exactly as logical shift and mask. -/
def mupen_to_version (x : Nat) : Version :=
  { major := (x >>> 16) &&& 0xffff
    minor := (x >>> 8) &&& 0xff
    patch := x &&& 0xff }

/-- Converts a `Version` back to a mupen64plus version number
(`version_to_mupen` in `src/plugin.rs`).  Each Rust `as i32` truncation of a
`u64` field keeps the low 32 bits of its pattern, and the `i32` shifts keep
the low 32 bits of the shifted pattern. -/
def version_to_mupen (v : Version) : Nat :=
  (((v.major % 2 ^ 32) <<< 16) % 2 ^ 32) |||
    (((v.minor % 2 ^ 32) <<< 8) % 2 ^ 32) ||| (v.patch % 2 ^ 32)

/-- `MINIMUM_CORE_VERSION` from `src/plugin.rs`. -/
def MINIMUM_CORE_VERSION : Version := mupen_to_version 0x016300

/-- `CORE_API_VERSION` from `src/plugin.rs`. -/
def CORE_API_VERSION : Version := mupen_to_version 0x020001

/-- The `PluginType` enumeration from `src/plugin.rs`. -/
inductive PluginType where
  | Rsp
  | Gfx
  | Audio
  | Input
  | Core
  | Other (raw : Nat)
  deriving DecidableEq

/-- Conversion `From<m64p_plugin_type> for PluginType` from `src/plugin.rs`.
The numeric codes are those of the native `m64p_plugin_type` enumeration
(declared by the external `mupen64plus-sys` bindings crate, not under `src/`):
RSP = 1, GFX = 2, AUDIO = 3, INPUT = 4, CORE = 5, anything else is `Other`. -/
def pluginTypeOfCode (c : Nat) : PluginType :=
  if c = 1 then .Rsp
  else if c = 2 then .Gfx
  else if c = 3 then .Audio
  else if c = 4 then .Input
  else if c = 5 then .Core
  else .Other c

/-- Conversion `From<PluginType> for m64p_plugin_type` from `src/plugin.rs`. -/
def codeOfPluginType : PluginType → Nat
  | .Rsp => 1
  | .Gfx => 2
  | .Audio => 3
  | .Input => 4
  | .Core => 5
  | .Other c => c

/-- Capability bit `M64CAPS_DYNAREC` of the native `m64p_core_caps` bitset
(numeric value from the `mupen64plus-sys` bindings crate). -/
def M64CAPS_DYNAREC : Nat := 1

/-- Capability bit `M64CAPS_DEBUGGER` of the native `m64p_core_caps` bitset. -/
def M64CAPS_DEBUGGER : Nat := 2

/-- Capability bit `M64CAPS_CORE_COMPARE` of the native `m64p_core_caps`
bitset. -/
def M64CAPS_CORE_COMPARE : Nat := 4

/-- The error taxonomy of `src/lib.rs`: the fourteen native `m64p_error`
variants plus the two bridge-local variants. -/
inductive Error where
  | NotInit
  | AlreadyInit
  | Incompatible
  | InputAssert
  | InputInvalid
  | InputNotFound
  | NoMemory
  | Files
  | Internal
  | InvalidState
  | PluginFail
  | SystemFail
  | Unsupported
  | WrongType
  | NoPluginStartup
  | NoRomOpen
  deriving DecidableEq

/-- Conversion `From<m64p_error> for Error` from `src/lib.rs`.  The numeric
codes follow the native `m64p_error` enumeration (SUCCESS = 0, then the
fourteen error codes in declaration order, as bound by `mupen64plus-sys`).
`none` models the two `panic!` arms: converting SUCCESS, or an unknown
code, panics. -/
def errorFrom (code : Nat) : Option Error :=
  if code = 0 then none
  else if code = 1 then some .NotInit
  else if code = 2 then some .AlreadyInit
  else if code = 3 then some .Incompatible
  else if code = 4 then some .InputAssert
  else if code = 5 then some .InputInvalid
  else if code = 6 then some .InputNotFound
  else if code = 7 then some .NoMemory
  else if code = 8 then some .Files
  else if code = 9 then some .Internal
  else if code = 10 then some .InvalidState
  else if code = 11 then some .PluginFail
  else if code = 12 then some .SystemFail
  else if code = 13 then some .Unsupported
  else if code = 14 then some .WrongType
  else none

/-- The `LoadError` enumeration from `src/plugin.rs`.  `LibLoading` carries no
payload here since the model never constructs it. -/
inductive LoadError where
  | LibLoading
  | BadPluginType (t : PluginType)
  | IncompatibleVersion (v : Version)
  | M64Err (e : Error)
  deriving DecidableEq

/-- The raw out-parameters filled in by a native `PluginGetVersion` call,
before `PluginVersion::from_ffi` converts them. -/
structure PluginVersionFfi where
  plugin_type : Nat
  plugin_version : Nat
  api_version : Nat
  plugin_name : String
  capabilities : Nat
  deriving DecidableEq

/-- The converted `PluginVersion` of `src/plugin.rs`.  `capabilities` keeps the
native bitset representation (already truncated to the known flags, as
`Capability::from_bits_truncate` does). -/
structure PluginVersion where
  plugin_type : PluginType
  plugin_version : Version
  api_version : Version
  plugin_name : String
  capabilities : Nat
  deriving DecidableEq

/-- `PluginVersion::is_compatible` from `src/plugin.rs`, checked exactly as the
source writes it: not (version below minimum, or API major mismatch). -/
def PluginVersion.is_compatible (pv : PluginVersion) : Bool :=
  !(Version.lt pv.plugin_version MINIMUM_CORE_VERSION ||
    pv.api_version.major != CORE_API_VERSION.major)

/-- `PluginVersion::from_ffi` from `src/plugin.rs`.  The argument models the
resolved `PluginGetVersion` entry point together with what a call to it
produces: `none` if the symbol is absent (the source's `.unwrap()` then
panics, modelled by an overall `none`), otherwise the returned error code and
the filled out-parameters.  A non-SUCCESS code is converted through
`From<m64p_error>`; SUCCESS yields the converted version record. -/
def PluginVersion.from_ffi (entry : Option (Nat × PluginVersionFfi)) :
    Option (Except Error PluginVersion) :=
  match entry with
  | none => none
  | some (ret, ffi) =>
    if ret ≠ 0 then (errorFrom ret).map Except.error
    else
      some (.ok
        { plugin_type := pluginTypeOfCode ffi.plugin_type
          plugin_version := mupen_to_version ffi.plugin_version
          api_version := mupen_to_version ffi.api_version
          plugin_name := ffi.plugin_name
          capabilities :=
            ffi.capabilities &&&
              (M64CAPS_DYNAREC ||| M64CAPS_DEBUGGER ||| M64CAPS_CORE_COMPARE) })

/-- Lexicographic at-least ordering on version triples, written from the
spec's words "plugin_version >= MINIMUM_CORE_VERSION (lexicographic on
(major, minor, patch))"; used only to state the compatibility claim. -/
def lexGe (a b : Version) : Prop :=
  b.major < a.major ∨
    (b.major = a.major ∧
      (b.minor < a.minor ∨ (b.minor = a.minor ∧ b.patch ≤ a.patch)))

/-- A loaded plugin library, as resolved by `Plugin::load_from_library`
(`src/plugin.rs`): the three independently optional entry points.
`plugin_get_version` pairs each present symbol with the result a call to it
produces (error code and out-parameters).  `plugin_startup` and
`plugin_shutdown` record only presence: `Mupen::attach_plugin` discards the
value returned by `PluginStartup`, and `PluginShutdown` is only called (and
its result discarded) on teardown, so their return values are never
observable. -/
structure Plugin where
  plugin_get_version : Option (Nat × PluginVersionFfi)
  plugin_startup : Bool
  plugin_shutdown : Bool
  deriving DecidableEq

/-- `Plugin::get_version` from `src/plugin.rs`: delegates to
`PluginVersion::from_ffi` on the resolved `PluginGetVersion` slot. -/
def Plugin.get_version (p : Plugin) : Option (Except Error PluginVersion) :=
  PluginVersion.from_ffi p.plugin_get_version

/-- `Plugin::load_from_library` from `src/plugin.rs`.  The input is the
already-resolved symbol table of the library (resolution itself never fails:
each slot is independently optional).  If `get_version` succeeds, a
Core-typed library is rejected; an incompatible version only logs a warning.
If `get_version` returns an error the checks are skipped and the plugin is
returned.  If the `PluginGetVersion` symbol is absent, `get_version` panics
(overall `none`). -/
def Plugin.load_from_library (p : Plugin) : Option (Except LoadError Plugin) :=
  match p.get_version with
  | none => none
  | some (.error _) => some (.ok p)
  | some (.ok version) =>
    if version.plugin_type = PluginType.Core then
      some (.error (.BadPluginType version.plugin_type))
    else
      some (.ok p)

/-- The command opcodes of `CoreDoCommand` used by the `Mupen` session
operations (`m64p_command` values ROM_OPEN, ROM_CLOSE, EXECUTE, STOP). -/
inductive Cmd where
  | romOpen (len : Nat)
  | romClose
  | execute
  | stop
  deriving DecidableEq

/-- The behaviour of a loaded core library, i.e. the resolved entries of the
`Core` struct of `src/core.rs` that the modelled operations consult.  Each
field is `none` when the symbol was absent, otherwise it gives the result of
calling the entry:
* `plugin_get_version` — error code and out-parameters of `PluginGetVersion`;
* `core_attach_plugin` — error code of `CoreAttachPlugin`, as a function of
  the plugin-type code passed in;
* `core_do_command` — error code of `CoreDoCommand`, as a function of the
  command issued;
* `debug_set_callbacks` — error code of `DebugSetCallbacks`;
* `config_open_section` — error code of `ConfigOpenSection`, paired with
  whether it left the section handle null (the source `assert!`s it is not);
* `config_set_parameter` — error code of `ConfigSetParameter`, as a function
  of the parameter name.
The remaining entries of the source's function table are never consulted by
the operations modelled here and are omitted. -/
structure Core where
  plugin_get_version : Option (Nat × PluginVersionFfi)
  core_attach_plugin : Option (Nat → Nat)
  core_do_command : Option (Cmd → Nat)
  debug_set_callbacks : Option Nat
  config_open_section : Option (Nat × Bool)
  config_set_parameter : Option (String → Nat)

/-- `Core::get_version` from `src/core.rs`. -/
def Core.get_version (c : Core) : Option (Except Error PluginVersion) :=
  PluginVersion.from_ffi c.plugin_get_version

/-- `Core::load_from_library` from `src/core.rs`: after (infallible,
independently optional) symbol resolution, calls `get_version` — absent
symbol panics (`none`), a returned error code propagates as a load error —
then rejects non-Core libraries and incompatible versions. -/
def Core.load_from_library (c : Core) : Option (Except LoadError Core) :=
  match c.get_version with
  | none => none
  | some (.error e) => some (.error (.M64Err e))
  | some (.ok version) =>
    if version.plugin_type ≠ PluginType.Core then
      some (.error (.BadPluginType version.plugin_type))
    else if !version.is_compatible then
      some (.error (.IncompatibleVersion version.api_version))
    else
      some (.ok c)

/-- The `Mupen` session state of `src/core.rs`: the started core, the
attached plugins in attachment order, and the ROM-open flag. -/
structure Mupen where
  core : Core
  plugins : List Plugin
  is_rom_open : Bool

/-- Native calls issued by the session operations, in issue order. -/
inductive Act where
  | pluginStartup
  | coreAttachPlugin (ptype : Nat)
  | doCommand (c : Cmd)
  deriving DecidableEq

/-- `Mupen::attach_plugin` from `src/core.rs`.  Returns the native calls
issued, and `none` for a panic (absent `PluginGetVersion` on the plugin, or
absent `CoreAttachPlugin` on the core, or an unknown error code), otherwise
the `Result` together with the resulting session state. -/
def Mupen.attach_plugin (s : Mupen) (p : Plugin) :
    List Act × Option (Except Error Unit × Mupen) :=
  if !s.is_rom_open then ([], some (.error .NoRomOpen, s))
  else
    match p.get_version with
    | none => ([], none)
    | some (.error e) => ([], some (.error e, s))
    | some (.ok version) =>
      if p.plugin_startup then
        match s.core.core_attach_plugin with
        | none => ([.pluginStartup], none)
        | some attach =>
          let ret := attach (codeOfPluginType version.plugin_type)
          if ret ≠ 0 then
            match errorFrom ret with
            | none =>
              ([.pluginStartup, .coreAttachPlugin (codeOfPluginType version.plugin_type)],
                none)
            | some e =>
              ([.pluginStartup, .coreAttachPlugin (codeOfPluginType version.plugin_type)],
                some (.error e, s))
          else
            ([.pluginStartup, .coreAttachPlugin (codeOfPluginType version.plugin_type)],
              some (.ok (), { s with plugins := s.plugins ++ [p] }))
      else ([], some (.error .NoPluginStartup, s))

/-- `Mupen::close_rom` from `src/core.rs`: issues the ROM_CLOSE command; on
success clears the ROM-open flag. -/
def Mupen.close_rom (s : Mupen) : List Act × Option (Except Error Unit × Mupen) :=
  match s.core.core_do_command with
  | none => ([], none)
  | some doCmd =>
    let ret := doCmd Cmd.romClose
    if ret ≠ 0 then
      match errorFrom ret with
      | none => ([.doCommand Cmd.romClose], none)
      | some e => ([.doCommand Cmd.romClose], some (.error e, s))
    else ([.doCommand Cmd.romClose], some (.ok (), { s with is_rom_open := false }))

/-- `Mupen::open_rom` from `src/core.rs`: if a ROM is open, first `close_rom`
(its error, if any, propagates); then issues ROM_OPEN with the buffer length;
on success sets the ROM-open flag. -/
def Mupen.open_rom (s : Mupen) (romLen : Nat) :
    List Act × Option (Except Error Unit × Mupen) :=
  let step1 := if s.is_rom_open then s.close_rom else ([], some (.ok (), s))
  match step1 with
  | (tr, none) => (tr, none)
  | (tr, some (.error e, s1)) => (tr, some (.error e, s1))
  | (tr, some (.ok _, s1)) =>
    match s1.core.core_do_command with
    | none => (tr, none)
    | some doCmd =>
      let ret := doCmd (Cmd.romOpen romLen)
      if ret ≠ 0 then
        match errorFrom ret with
        | none => (tr ++ [.doCommand (Cmd.romOpen romLen)], none)
        | some e => (tr ++ [.doCommand (Cmd.romOpen romLen)], some (.error e, s1))
      else
        (tr ++ [.doCommand (Cmd.romOpen romLen)],
          some (.ok (), { s1 with is_rom_open := true }))

/-- Native calls issued by `Mupen::debug`, in issue order. -/
inductive DbgAct where
  | setCallbacks
  | openSection (name : String)
  | setParameter (name : String)
  deriving DecidableEq

/-- `Mupen::is_debug_supported` from `src/core/debug.rs`: true when the
core's `get_version` succeeds and the reported capabilities contain the
DEBUGGER flag (`bitflags` containment: `bits &&& flag == flag`).  `none`
models the panic on an absent `PluginGetVersion` entry. -/
def Mupen.is_debug_supported (s : Mupen) : Option Bool :=
  match s.core.get_version with
  | none => none
  | some (.error _) => some false
  | some (.ok version) =>
    some ((version.capabilities &&& M64CAPS_DEBUGGER) == M64CAPS_DEBUGGER)

/-- `Mupen::debug` from `src/core/debug.rs`.  When the debugger capability is
absent, fails with `Unsupported` before any native call.  Otherwise registers
the init/update/vi callbacks via `DebugSetCallbacks`, opens the "Core" config
section (the source `assert!`s the returned handle is non-null — a null
handle panics), and sets the two config parameters "EnableDebugger" and
"R4300Emulator".  Any non-SUCCESS code converts to an error and returns;
an absent entry point or unknown code panics (`none`). -/
def Mupen.debug (s : Mupen) : List DbgAct × Option (Except Error Unit) :=
  match s.is_debug_supported with
  | none => ([], none)
  | some false => ([], some (.error .Unsupported))
  | some true =>
    match s.core.debug_set_callbacks with
    | none => ([], none)
    | some ret =>
      if ret ≠ 0 then ([.setCallbacks], (errorFrom ret).map Except.error)
      else
        match s.core.config_open_section with
        | none => ([.setCallbacks], none)
        | some (ret2, isNull) =>
          if ret2 ≠ 0 then
            ([.setCallbacks, .openSection "Core"], (errorFrom ret2).map Except.error)
          else if isNull then ([.setCallbacks, .openSection "Core"], none)
          else
            match s.core.config_set_parameter with
            | none => ([.setCallbacks, .openSection "Core"], none)
            | some setParam =>
              let r3 := setParam "EnableDebugger"
              if r3 ≠ 0 then
                ([.setCallbacks, .openSection "Core", .setParameter "EnableDebugger"],
                  (errorFrom r3).map Except.error)
              else
                let r4 := setParam "R4300Emulator"
                if r4 ≠ 0 then
                  ([.setCallbacks, .openSection "Core",
                      .setParameter "EnableDebugger", .setParameter "R4300Emulator"],
                    (errorFrom r4).map Except.error)
                else
                  ([.setCallbacks, .openSection "Core",
                      .setParameter "EnableDebugger", .setParameter "R4300Emulator"],
                    some (.ok ()))

/-- Breakpoint flag `M64P_BKP_FLAG_ENABLED` of the native `m64p_dbg_bkp_flags`
bitset (numeric values from the `mupen64plus-sys` bindings crate). -/
def M64P_BKP_FLAG_ENABLED : Nat := 0x01

/-- Breakpoint flag `M64P_BKP_FLAG_EXEC`. -/
def M64P_BKP_FLAG_EXEC : Nat := 0x02

/-- Breakpoint flag `M64P_BKP_FLAG_READ`. -/
def M64P_BKP_FLAG_READ : Nat := 0x04

/-- Breakpoint flag `M64P_BKP_FLAG_WRITE`. -/
def M64P_BKP_FLAG_WRITE : Nat := 0x08

/-- Breakpoint flag `M64P_BKP_FLAG_LOG`. -/
def M64P_BKP_FLAG_LOG : Nat := 0x10

/-- A breakpoint, i.e. the `m64p_breakpoint` wire structure that the Rust
`Breakpoint` newtype wraps: inclusive `u32` address range and flag bitset. -/
structure Breakpoint where
  address : Nat
  endaddr : Nat
  flags : Nat
  deriving DecidableEq

/-- One endpoint of a Rust `RangeBounds<u32>` value (`std::ops::Bound`). -/
inductive Bnd where
  | included (n : Nat)
  | excluded (n : Nat)
  | unbounded
  deriving DecidableEq

/-- The free function `breakpoint` from `src/core/debug.rs`: converts the two
range bounds to the stored inclusive `u32` endpoints (the `u32` `n + 1` and
`n - 1` wrap modulo `2 ^ 32`) and assembles the flag bitset, with ENABLED
always set. -/
def breakpoint (startB endB : Bnd) (exec readF writeF logF : Bool) : Breakpoint :=
  { address :=
      match startB with
      | .included n => n
      | .excluded n => (n + 1) % 2 ^ 32
      | .unbounded => 0
    endaddr :=
      match endB with
      | .included n => n
      | .excluded n => (n + (2 ^ 32 - 1)) % 2 ^ 32
      | .unbounded => 2 ^ 32 - 1
    flags :=
      let flags := M64P_BKP_FLAG_ENABLED
      let flags := if exec then flags ||| M64P_BKP_FLAG_EXEC else flags
      let flags := if readF then flags ||| M64P_BKP_FLAG_READ else flags
      let flags := if writeF then flags ||| M64P_BKP_FLAG_WRITE else flags
      let flags := if logF then flags ||| M64P_BKP_FLAG_LOG else flags
      flags }

/-- `Breakpoint::disable` from `src/core/debug.rs`, exactly as written there:
`flags &= M64P_BKP_FLAG_ENABLED`. -/
def Breakpoint.disable (b : Breakpoint) : Breakpoint :=
  { b with flags := b.flags &&& M64P_BKP_FLAG_ENABLED }

/-- A `CoreDoCommand` behaviour that reports success for every command. -/
def cmdZero : Cmd → Nat := fun _ => 0

/-- A `ConfigSetParameter` behaviour that reports success for every name. -/
def paramZero : String → Nat := fun _ => 0

/-- A `CoreAttachPlugin` behaviour that reports success for every role. -/
def attachZero : Nat → Nat := fun _ => 0

/-- Version data reported by a healthy, debugger-capable core library. -/
def coreFfi : PluginVersionFfi :=
  { plugin_type := 5, plugin_version := 0x020509, api_version := 0x020001,
    plugin_name := "Mupen64Plus Core", capabilities := M64CAPS_DEBUGGER }

/-- A core library on which every modelled native call succeeds. -/
def okCore : Core :=
  { plugin_get_version := some (0, coreFfi), core_attach_plugin := some attachZero,
    core_do_command := some cmdZero, debug_set_callbacks := some 0,
    config_open_section := some (0, false), config_set_parameter := some paramZero }

/-- A core library whose `PluginGetVersion` symbol is absent. -/
def noVersionCore : Core := { okCore with plugin_get_version := none }

/-- A core library that reports an empty capability set. -/
def noDebugCore : Core :=
  { okCore with plugin_get_version := some (0, { coreFfi with capabilities := 0 }) }

/-- A session with a ROM open and no plugin attached. -/
def openSession : Mupen := { core := okCore, plugins := [], is_rom_open := true }

/-- A session with no ROM open. -/
def closedSession : Mupen := { core := okCore, plugins := [], is_rom_open := false }

/-- A session whose core lacks the debugger capability. -/
def noDebugSession : Mupen := { core := noDebugCore, plugins := [], is_rom_open := true }

/-- Version data reported by a well-behaved video plugin. -/
def gfxFfi : PluginVersionFfi :=
  { plugin_type := 2, plugin_version := 0x020001, api_version := 0x020001,
    plugin_name := "video-a", capabilities := 0 }

/-- A loadable video plugin. -/
def gfxPluginA : Plugin :=
  { plugin_get_version := some (0, gfxFfi), plugin_startup := true,
    plugin_shutdown := true }

/-- A second loadable video plugin, distinct from `gfxPluginA`. -/
def gfxPluginB : Plugin :=
  { plugin_get_version := some (0, { gfxFfi with plugin_name := "video-b" }),
    plugin_startup := true, plugin_shutdown := true }

/-- A video plugin whose `PluginStartup` symbol is absent. -/
def noStartupPlugin : Plugin :=
  { plugin_get_version := some (0, gfxFfi), plugin_startup := false,
    plugin_shutdown := true }

/-- True when the plugin's reported role is Video (Gfx). -/
def isGfxPlugin (p : Plugin) : Bool :=
  match p.get_version with
  | some (.ok v) => v.plugin_type = PluginType.Gfx
  | _ => false

/-- Version out-parameters of a Core-typed library (never read, because the
paired error code is non-zero). -/
def c10Ffi : PluginVersionFfi :=
  { plugin_type := 5, plugin_version := 0, api_version := 0, plugin_name := "bad",
    capabilities := 0 }

/-- A plugin library whose `PluginGetVersion` entry returns the error code 9
(Internal) instead of filling its out-parameters meaningfully. -/
def c10Plugin : Plugin :=
  { plugin_get_version := some (9, c10Ffi), plugin_startup := true,
    plugin_shutdown := true }

/-- Claim C4: for every 24-bit packed version integer `v`, decoding it to a
(major, minor, patch) triple — high byte, middle byte, low byte — and
re-encoding returns `v`. -/
theorem version_roundtrip (v : Nat) (hv : v < 2 ^ 24) :
    version_to_mupen (mupen_to_version v) = v := by
  have hmask16 : (0xffff : Nat) = 2 ^ 16 - 1 := by norm_num
  have hmask8 : (0xff : Nat) = 2 ^ 8 - 1 := by norm_num
  simp only [version_to_mupen, mupen_to_version, hmask16, hmask8,
    Nat.and_pow_two_sub_one_eq_mod, Nat.shiftRight_eq_div_pow, Nat.shiftLeft_eq]
  have e1 : v / 2 ^ 16 % 2 ^ 16 = v / 2 ^ 16 := Nat.mod_eq_of_lt (by omega)
  have e2 : v / 2 ^ 16 % 2 ^ 32 = v / 2 ^ 16 := Nat.mod_eq_of_lt (by omega)
  have e3 : v / 2 ^ 16 * 2 ^ 16 % 2 ^ 32 = v / 2 ^ 16 * 2 ^ 16 :=
    Nat.mod_eq_of_lt (by omega)
  have e4 : v / 2 ^ 8 % 2 ^ 8 % 2 ^ 32 = v / 2 ^ 8 % 2 ^ 8 :=
    Nat.mod_eq_of_lt (by omega)
  have e5 : v / 2 ^ 8 % 2 ^ 8 * 2 ^ 8 % 2 ^ 32 = v / 2 ^ 8 % 2 ^ 8 * 2 ^ 8 :=
    Nat.mod_eq_of_lt (by omega)
  have e6 : v % 2 ^ 8 % 2 ^ 32 = v % 2 ^ 8 := Nat.mod_eq_of_lt (by omega)
  rw [e1, e2, e3, e4, e5, e6]
  rw [Nat.mul_comm (v / 2 ^ 16) (2 ^ 16), Nat.mul_comm (v / 2 ^ 8 % 2 ^ 8) (2 ^ 8)]
  rw [← Nat.mul_add_lt_is_or (show 2 ^ 8 * (v / 2 ^ 8 % 2 ^ 8) < 2 ^ 16 by omega)
    (v / 2 ^ 16)]
  rw [show 2 ^ 16 * (v / 2 ^ 16) + 2 ^ 8 * (v / 2 ^ 8 % 2 ^ 8)
        = 2 ^ 8 * (2 ^ 8 * (v / 2 ^ 16) + v / 2 ^ 8 % 2 ^ 8) by ring]
  rw [← Nat.mul_add_lt_is_or (show v % 2 ^ 8 < 2 ^ 8 by omega)
    (2 ^ 8 * (v / 2 ^ 16) + v / 2 ^ 8 % 2 ^ 8)]
  omega

/-- Witness for C4: the round-trip at the concrete packed integer 0x016300. -/
theorem version_roundtrip_witness :
    0x016300 < 2 ^ 24 ∧ version_to_mupen (mupen_to_version 0x016300) = 0x016300 :=
  ⟨by norm_num, version_roundtrip 0x016300 (by norm_num)⟩

/-- Claim C5: `is_compatible` returns true exactly when the plugin version is
at least `MINIMUM_CORE_VERSION` (lexicographically) and the API major version
equals that of `CORE_API_VERSION`. -/
theorem is_compatible_iff (pv : PluginVersion) :
    pv.is_compatible = true ↔
      lexGe pv.plugin_version MINIMUM_CORE_VERSION ∧
        pv.api_version.major = CORE_API_VERSION.major := by
  have hmin : MINIMUM_CORE_VERSION = ⟨1, 99, 0⟩ := rfl
  have hapi : CORE_API_VERSION = ⟨2, 0, 1⟩ := rfl
  simp only [PluginVersion.is_compatible, Version.lt, lexGe, hmin, hapi]
  simp only [Bool.not_eq_true', Bool.or_eq_false_iff, decide_eq_false_iff_not,
    Bool.and_eq_false_iff, beq_eq_false_iff_ne, bne_eq_false_iff_eq, ne_eq,
    decide_eq_true_eq, Bool.or_eq_true, Bool.and_eq_true, beq_iff_eq]
  omega

/-- Witness for C5: a concrete version record on the compatible side of the
equivalence. -/
theorem is_compatible_iff_witness :
    ({ plugin_type := .Core, plugin_version := ⟨2, 0, 0⟩, api_version := ⟨2, 0, 1⟩,
       plugin_name := "core", capabilities := 0 } : PluginVersion).is_compatible
      = true :=
  (is_compatible_iff _).mpr ⟨by unfold lexGe; decide, rfl⟩

/-- Claim C3 counterexample: on a core library with no `PluginGetVersion`
entry, `Core::load_from_library` panics — the `unwrap` inside
`PluginVersion::from_ffi` aborts, modelled `none` — so it does not return a
load error (and does not succeed either). -/
theorem load_no_get_version_cex : Core.load_from_library noVersionCore = none := rfl

/-- Claim C3 amended: if the loaded library does not provide the
`get_version` entry point, `Core::load_from_library` does not succeed — but it
fails by panicking on the unwrap of the absent entry (modelled `none`) rather
than by returning a load error. -/
theorem load_no_get_version_panics (c : Core) (h : c.plugin_get_version = none) :
    Core.load_from_library c = none := by
  unfold Core.load_from_library Core.get_version PluginVersion.from_ffi
  rw [h]

/-- Witness for the amended C3 at a concrete core library. -/
theorem load_no_get_version_panics_witness :
    Core.load_from_library noVersionCore = none :=
  load_no_get_version_panics noVersionCore rfl

/-- Claim C9 (code bug): `Breakpoint::disable` computes
`flags &= M64P_BKP_FLAG_ENABLED`, which keeps the Enabled bit set and clears
every other flag — the opposite of the claimed (and evidently intended,
`&= !ENABLED`) behaviour.  Evaluated on an exec breakpoint over `0..=16`:
the flags go from ENABLED|EXEC = 3 to 1 (Enabled still set, Exec lost), not
to the claimed EXEC = 2. -/
theorem disable_keeps_enabled_clears_others :
    (breakpoint (.included 0) (.included 16) true false false false).flags =
      (M64P_BKP_FLAG_ENABLED ||| M64P_BKP_FLAG_EXEC) ∧
    ((breakpoint (.included 0) (.included 16) true false false false).disable).flags =
      M64P_BKP_FLAG_ENABLED ∧
    ((breakpoint (.included 0) (.included 16) true false false false).disable).flags
        &&& M64P_BKP_FLAG_ENABLED = M64P_BKP_FLAG_ENABLED ∧
    ((breakpoint (.included 0) (.included 16) true false false false).disable).flags
        &&& M64P_BKP_FLAG_EXEC = 0 ∧
    (breakpoint (.included 0) (.included 16) true false false false).disable ≠
      { address := 0, endaddr := 16, flags := M64P_BKP_FLAG_EXEC } := by
  decide

/-- Claim C10: `Plugin::load_from_library` returns Ok even when the library's
`PluginGetVersion` call itself returns a (known) error code; the
wrong-plugin-kind check and the version-compatibility check are skipped. -/
theorem plugin_load_ignores_get_version_error (p : Plugin) (ret : Nat)
    (ffi : PluginVersionFfi) (hgv : p.plugin_get_version = some (ret, ffi))
    (hret : ret ≠ 0) (hknown : (errorFrom ret).isSome = true) :
    Plugin.load_from_library p = some (.ok p) := by
  obtain ⟨e, he⟩ := Option.isSome_iff_exists.mp hknown
  unfold Plugin.load_from_library Plugin.get_version PluginVersion.from_ffi
  rw [hgv]
  simp [hret, he]

/-- Witness for C10: a Core-typed library whose version call fails with code 9
still loads as a plugin (both checks skipped). -/
theorem plugin_load_ignores_get_version_error_witness :
    Plugin.load_from_library c10Plugin = some (.ok c10Plugin) :=
  plugin_load_ignores_get_version_error c10Plugin 9 c10Ffi rfl (by norm_num) rfl

/-- Claim C1 (code bug): `Mupen::attach_plugin` documents "replacing any
existing plugin of the same type", but it only appends.  Attaching two video
plugins in succession (every native call succeeding) leaves the session with
both in its plugin list: two plugins of the Video role, not one. -/
theorem attach_same_role_keeps_both :
    (openSession.attach_plugin gfxPluginA).2 =
      some (.ok (), { openSession with plugins := [gfxPluginA] }) ∧
    (({ openSession with plugins := [gfxPluginA] } : Mupen).attach_plugin
        gfxPluginB).2 =
      some (.ok (), { openSession with plugins := [gfxPluginA, gfxPluginB] }) ∧
    ([gfxPluginA, gfxPluginB].countP isGfxPlugin) = 2 :=
  ⟨rfl, rfl, rfl⟩

/-- Claim C2: with no ROM open, `attach_plugin` fails with `NoRomOpen` and
changes nothing; with a ROM open and a plugin whose version call succeeds but
whose `PluginStartup` entry is absent, it fails with `NoPluginStartup` and
changes nothing; and more generally every error return of `attach_plugin`
leaves the plugin list unchanged. -/
theorem attach_plugin_error_paths :
    (∀ (s : Mupen) (p : Plugin), s.is_rom_open = false →
      s.attach_plugin p = ([], some (.error .NoRomOpen, s))) ∧
    (∀ (s : Mupen) (p : Plugin) (v : PluginVersion), s.is_rom_open = true →
      p.get_version = some (.ok v) → p.plugin_startup = false →
      s.attach_plugin p = ([], some (.error .NoPluginStartup, s))) ∧
    (∀ (s : Mupen) (p : Plugin) (tr : List Act) (e : Error) (s' : Mupen),
      s.attach_plugin p = (tr, some (.error e, s')) → s'.plugins = s.plugins) := by
  refine ⟨?_, ?_, ?_⟩
  · intro s p h
    simp [Mupen.attach_plugin, h]
  · intro s p v h1 h2 h3
    simp [Mupen.attach_plugin, h1, h2, h3]
  · intro s p tr e s' h
    simp only [Mupen.attach_plugin] at h
    repeat' split at h
    all_goals simp_all

/-- Witness for C2: the `NoRomOpen` and `NoPluginStartup` error paths at
concrete sessions and plugins, and list preservation on the first of them. -/
theorem attach_plugin_error_paths_witness :
    closedSession.attach_plugin gfxPluginA =
      ([], some (.error .NoRomOpen, closedSession)) ∧
    openSession.attach_plugin noStartupPlugin =
      ([], some (.error .NoPluginStartup, openSession)) ∧
    closedSession.plugins = closedSession.plugins :=
  ⟨attach_plugin_error_paths.1 closedSession gfxPluginA rfl,
   attach_plugin_error_paths.2.1 openSession noStartupPlugin
     { plugin_type := .Gfx, plugin_version := ⟨2, 0, 1⟩, api_version := ⟨2, 0, 1⟩,
       plugin_name := "video-a", capabilities := 0 } rfl rfl rfl,
   attach_plugin_error_paths.2.2 closedSession gfxPluginA [] .NoRomOpen closedSession
     (attach_plugin_error_paths.1 closedSession gfxPluginA rfl)⟩

/-- Claim C6: breakpoint construction normalizes every range endpoint to the
stored inclusive form — inclusive start `n` ↦ `n`, exclusive start `n` ↦
`n + 1`, unbounded start ↦ 0, inclusive end `n` ↦ `n`, exclusive end `n` ↦
`n - 1`, unbounded end ↦ `u32::MAX`; in particular `0..100` stores endaddr 99
and `..` stores 0 and `u32::MAX`.  (The exclusive cases carry the hypotheses
making `n + 1` resp. `n - 1` a `u32` value, which the claim's arithmetic
presupposes.) -/
theorem breakpoint_range_normalization :
    (∀ (n : Nat) (eB : Bnd) (e r w l : Bool),
      (breakpoint (.included n) eB e r w l).address = n) ∧
    (∀ (n : Nat) (eB : Bnd) (e r w l : Bool), n + 1 < 2 ^ 32 →
      (breakpoint (.excluded n) eB e r w l).address = n + 1) ∧
    (∀ (eB : Bnd) (e r w l : Bool),
      (breakpoint .unbounded eB e r w l).address = 0) ∧
    (∀ (n : Nat) (sB : Bnd) (e r w l : Bool),
      (breakpoint sB (.included n) e r w l).endaddr = n) ∧
    (∀ (n : Nat) (sB : Bnd) (e r w l : Bool), 0 < n → n < 2 ^ 32 →
      (breakpoint sB (.excluded n) e r w l).endaddr = n - 1) ∧
    (∀ (sB : Bnd) (e r w l : Bool),
      (breakpoint sB .unbounded e r w l).endaddr = 2 ^ 32 - 1) ∧
    (breakpoint (.included 0) (.excluded 100) false false false false).address = 0 ∧
    (breakpoint (.included 0) (.excluded 100) false false false false).endaddr = 99 ∧
    (breakpoint .unbounded .unbounded false false false false).address = 0 ∧
    (breakpoint .unbounded .unbounded false false false false).endaddr =
      2 ^ 32 - 1 := by
  refine ⟨?_, ?_, ?_, ?_, ?_, ?_, ?_, ?_, ?_, ?_⟩
  · intro n eB e r w l
    rfl
  · intro n eB e r w l h
    simp only [breakpoint]
    omega
  · intro eB e r w l
    rfl
  · intro n sB e r w l
    cases sB <;> rfl
  · intro n sB e r w l h1 h2
    cases sB <;> simp only [breakpoint] <;> omega
  · intro sB e r w l
    cases sB <;> rfl
  · rfl
  · norm_num [breakpoint]
  · rfl
  · rfl

/-- Witness for C6: the exclusive-bound cases applied at concrete endpoints
5 (start) and 7 (end). -/
theorem breakpoint_range_normalization_witness :
    (breakpoint (.excluded 5) .unbounded false false false false).address = 6 ∧
    (breakpoint .unbounded (.excluded 7) false false false false).endaddr = 6 :=
  ⟨breakpoint_range_normalization.2.1 5 .unbounded false false false false
      (by norm_num),
   breakpoint_range_normalization.2.2.2.2.1 7 .unbounded false false false false
      (by norm_num) (by norm_num)⟩

/-- Claim C7: with a ROM already open (and a core whose do-command entry is
present, the close succeeding), `open_rom` issues ROM_CLOSE first and then
ROM_OPEN; and if the open also succeeds it returns Ok with `is_rom_open`
true. -/
theorem open_rom_reopen (s : Mupen) (len : Nat) (doCmd : Cmd → Nat)
    (hro : s.is_rom_open = true)
    (hdc : s.core.core_do_command = some doCmd)
    (hclose : doCmd Cmd.romClose = 0) :
    (s.open_rom len).1 =
      [Act.doCommand Cmd.romClose, Act.doCommand (Cmd.romOpen len)] ∧
    (doCmd (Cmd.romOpen len) = 0 →
      (s.open_rom len).2 = some (.ok (), { s with is_rom_open := true })) := by
  by_cases hopen : doCmd (Cmd.romOpen len) = 0
  · constructor
    · simp [Mupen.open_rom, Mupen.close_rom, hro, hdc, hclose, hopen]
    · intro _
      simp [Mupen.open_rom, Mupen.close_rom, hro, hdc, hclose, hopen]
  · constructor
    · cases herr : errorFrom (doCmd (Cmd.romOpen len)) <;>
        simp [Mupen.open_rom, Mupen.close_rom, hro, hdc, hclose, hopen, herr]
    · intro h
      exact absurd h hopen

/-- Witness for C7: reopening on a concrete all-succeeding session issues
ROM_CLOSE then ROM_OPEN and ends with the ROM open. -/
theorem open_rom_reopen_witness :
    (openSession.open_rom 42).1 =
      [Act.doCommand Cmd.romClose, Act.doCommand (Cmd.romOpen 42)] ∧
    (openSession.open_rom 42).2 =
      some (.ok (), { openSession with is_rom_open := true }) :=
  ⟨(open_rom_reopen openSession 42 cmdZero rfl rfl rfl).1,
   (open_rom_reopen openSession 42 cmdZero rfl rfl rfl).2 rfl⟩

/-- Claim C8: when the core's version call succeeds but the reported
capabilities lack the DEBUGGER flag, `debug()` fails with `Unsupported`
having issued no native call (in particular `DebugSetCallbacks` is never
invoked); when the flag is present (and the `DebugSetCallbacks` entry
exists), `debug()` invokes it, registering the init/update/vi callbacks. -/
theorem debug_capability_gate :
    (∀ (s : Mupen) (ffi : PluginVersionFfi),
      s.core.plugin_get_version = some (0, ffi) →
      ffi.capabilities &&& M64CAPS_DEBUGGER ≠ M64CAPS_DEBUGGER →
      s.debug = ([], some (.error .Unsupported))) ∧
    (∀ (s : Mupen) (ffi : PluginVersionFfi) (ret : Nat),
      s.core.plugin_get_version = some (0, ffi) →
      ffi.capabilities &&& M64CAPS_DEBUGGER = M64CAPS_DEBUGGER →
      s.core.debug_set_callbacks = some ret →
      DbgAct.setCallbacks ∈ (s.debug).1) := by
  have hassoc : ∀ x : Nat, (x &&& 7) &&& 2 = x &&& 2 := by
    intro x
    rw [Nat.land_assoc]
    rfl
  constructor
  · intro s ffi hgv hcaps
    simp only [M64CAPS_DEBUGGER] at hcaps
    have hsup : s.is_debug_supported = some false := by
      unfold Mupen.is_debug_supported Core.get_version PluginVersion.from_ffi
      rw [hgv]
      simp only [ne_eq, not_true_eq_false, if_false, ite_false, if_neg,
        M64CAPS_DYNAREC, M64CAPS_DEBUGGER, M64CAPS_CORE_COMPARE]
      simp [hassoc, beq_eq_false_iff_ne, hcaps]
    unfold Mupen.debug
    rw [hsup]
  · intro s ffi ret hgv hcaps hcb
    simp only [M64CAPS_DEBUGGER] at hcaps
    have hsup : s.is_debug_supported = some true := by
      unfold Mupen.is_debug_supported Core.get_version PluginVersion.from_ffi
      rw [hgv]
      simp only [ne_eq, not_true_eq_false, if_false, ite_false, if_neg,
        M64CAPS_DYNAREC, M64CAPS_DEBUGGER, M64CAPS_CORE_COMPARE]
      simp [hassoc, hcaps]
    simp only [Mupen.debug, hsup, hcb]
    repeat' split
    all_goals simp

/-- Witness for C8: a capability-free core makes `debug()` fail with
`Unsupported` and an empty call trace; a debugger-capable core's `debug()`
trace contains the `DebugSetCallbacks` invocation. -/
theorem debug_capability_gate_witness :
    noDebugSession.debug = ([], some (.error .Unsupported)) ∧
    DbgAct.setCallbacks ∈ (openSession.debug).1 :=
  ⟨debug_capability_gate.1 noDebugSession { coreFfi with capabilities := 0 } rfl
      (by decide),
   debug_capability_gate.2 openSession coreFfi 0 rfl (by decide) rfl⟩

end M64
